import Mathlib

/-!
Verification of the user-management CRUD surface of the FastApi-Apis
repository.

The repository holds two user-management variants:

* `src/main1.py` — string-identifier variant: records (`UserResponse`)
  are kept in a Python list `users_db`; `create_user` appends a record
  whose id is a freshly generated `uuid4` string, `get_all_users`
  returns the list, `get_user_by_id` scans the list for the first
  matching id, `get_users_count` returns `len(users_db)`.

* `src/testing.py` — integer-identifier variant: records are kept in a
  Python dict `user_db` seeded with five fixed records; `get_user`,
  `update_user` and `delete_user` look the key up, replace the value, or
  delete the entry, raising `HTTPException(404, "User not found")` when
  the key is absent.

Python dicts are embedded as insertion-ordered association lists
`List (Nat × UserFields)`; `uuid.uuid4()` is embedded as an oracle
argument carrying the generated string.  FastAPI resolves routes in
registration order, first match wins; that order is embedded explicitly
because it decides where `GET /users/count` lands.
-/

namespace FastApiApis

/-- The four user fields shared by the pydantic models `User` and
`UserCreate` and by the dict values in `src/testing.py`. -/
structure UserFields where
  name : String
  email : String
  phone : String
  gender : String
deriving DecidableEq, Repr

/-- Record type `UserResponse` of src/main1.py: the stored record, fields plus the
string identifier. -/
structure UserResponse where
  id : String
  name : String
  email : String
  phone : String
  gender : String
deriving DecidableEq, Repr

/-- The list store `users_db` of `src/main1.py`. -/
abbrev UsersDb := List UserResponse

/-- The dict store `user_db` of `src/testing.py`, as an
insertion-ordered association list (Python dict semantics). -/
abbrev UserDb := List (Nat × UserFields)

/-- The JSON bodies (and HTTP failure outcomes) the handlers in the two
source files can produce. -/
inductive Resp where
  | homeMain1 : Resp
  | userList : List UserResponse → Resp
  | userResp : UserResponse → Resp
  | totalUsers : Nat → Resp
  | homeTesting : Nat → Resp
  | usersDict : UserDb → Resp
  | userWithId : Nat → UserFields → Resp
  | updated : Nat → UserFields → UserFields → Resp
  | message : String → Resp
  | http404 : String → Resp
  | keyError : Resp
  | validationError : Resp
  | routeNotFound : Resp
  | methodNotAllowed : Resp
deriving DecidableEq, Repr

/-! ## src/main1.py — string-identifier variant -/

/-- Handler `create_user` (src/main1.py lines 36-54): builds a `UserResponse`
from the generated uuid string and the posted fields, appends it to
`users_db` and returns it.  The nondeterministic `str(uuid.uuid4())` is
passed in as the argument `user_id`. -/
def create_user (db : UsersDb) (user_id : String) (user : UserFields) : UsersDb × UserResponse :=
  let new_user : UserResponse :=
    ⟨user_id, user.name, user.email, user.phone, user.gender⟩
  (db ++ [new_user], new_user)

/-- Handler `get_all_users` (src/main1.py lines 56-59): returns `users_db`. -/
def get_all_users (db : UsersDb) : List UserResponse := db

/-- Handler `get_user_by_id` (src/main1.py lines 61-68): scans `users_db` in
order, returns the first record with the requested id, raises 404
`"User not found"` when the loop finds none. -/
def get_user_by_id (db : UsersDb) (user_id : String) : Resp :=
  match db.find? (fun user => user.id == user_id) with
  | some user => .userResp user
  | none => .http404 "User not found"

/-- Handler `get_users_count` (src/main1.py lines 70-73): returns
`{"total_users": len(users_db)}`; this projection is the length. -/
def get_users_count (db : UsersDb) : Nat := db.length

/-! ## src/testing.py — integer-identifier variant -/

def john : UserFields := ⟨"John", "john@example.com", "1234567890", "male"⟩
def jane : UserFields := ⟨"Jane", "jane@example.com", "0987654321", "female"⟩
def jim : UserFields := ⟨"Jim", "jim@example.com", "1111111111", "male"⟩
def jill : UserFields := ⟨"Jill", "jill@example.com", "2222222222", "female"⟩
def jack : UserFields := ⟨"Jack", "jack@example.com", "3333333333", "male"⟩

/-- The seeded dict `user_db` of src/testing.py lines 7-13. -/
def user_db : UserDb := [(1, john), (2, jane), (3, jim), (4, jill), (5, jack)]

/-- Python `d[k] = v`: replace the value at key `k` in place when the
key is present, append the pair otherwise. -/
def dictSet (db : UserDb) (k : Nat) (v : UserFields) : UserDb :=
  if (db.lookup k).isSome then
    db.map (fun kv => if kv.1 == k then (k, v) else kv)
  else
    db ++ [(k, v)]

/-- Python `del d[k]`: remove the entry at key `k`. -/
def dictDel (db : UserDb) (k : Nat) : UserDb :=
  db.filter (fun kv => !(kv.1 == k))

/-- Handler `get_user` (src/testing.py lines 31-37): returns
`{"user_id": ..., "user": ...}` when the key is in the dict, raises 404
`"User not found"` otherwise. -/
def get_user (db : UserDb) (user_id : Nat) : Resp :=
  match db.lookup user_id with
  | some user => .userWithId user_id user
  | none => .http404 "User not found"

/-- Handler `update_user` (src/testing.py lines 39-56): when the key is in the
dict, copies the old value, overwrites the entry with the posted
fields, and returns message, user_id, old_data and new_data (new_data
read back from the dict, as in the source); raises 404 otherwise.  The
`keyError` branch embeds the Python `KeyError` the read-back would
raise if the key had vanished; it is proved unreachable below. -/
def update_user (db : UserDb) (user_id : Nat) (user : UserFields) : UserDb × Resp :=
  match db.lookup user_id with
  | some old_user =>
    let db2 := dictSet db user_id user
    match db2.lookup user_id with
    | some new_data => (db2, .updated user_id old_user new_data)
    | none => (db2, .keyError)
  | none => (db, .http404 "User not found")

/-- Handler `delete_user` (src/testing.py lines 60-67): when the key is in the
dict, deletes the entry and returns
`{"message": "User deleted successfully"}`; raises 404 otherwise. -/
def delete_user (db : UserDb) (user_id : Nat) : UserDb × Resp :=
  if (db.lookup user_id).isSome then
    (dictDel db user_id, .message "User deleted successfully")
  else
    (db, .http404 "User not found")

/-! ## FastAPI routing

FastAPI (via Starlette) tries the registered routes in declaration
order; the first route whose path template matches serves the request.
A path template is a sequence of segments, each either a literal or a
`{param}` placeholder matching any single segment.  If some template
matches the path but no matching route accepts the request method, the
response is 405; if no template matches at all, 404. -/

inductive Method where
  | get
  | post
  | put
  | delete
deriving DecidableEq, Repr

/-- One segment of a path template. -/
inductive Seg where
  | lit : String → Seg
  | param : String → Seg
deriving DecidableEq, Repr

def segMatches : Seg → String → Bool
  | .lit s, t => s == t
  | .param _, _ => true

/-- A template matches a path when they have the same number of
segments and each template segment matches the path segment. -/
def patMatches (pat : List Seg) (path : List String) : Bool :=
  pat.length == path.length && (pat.zip path).all (fun st => segMatches st.1 st.2)

/-- The values captured by the `{param}` placeholders, in order. -/
def bindParams (pat : List Seg) (path : List String) : List String :=
  (pat.zip path).filterMap (fun st =>
    match st.1 with
    | .param _ => some st.2
    | .lit _ => none)

/-- A registered route: method, path template, and the handler, which
receives the captured path-parameter values and the current store. -/
structure Route (σ : Type) where
  method : Method
  pattern : List Seg
  handler : List String → σ → σ × Resp

/-- Declaration-order route resolution, as FastAPI does it. -/
def dispatch {σ : Type} (routes : List (Route σ)) (m : Method) (path : List String)
    (s : σ) : σ × Resp :=
  match routes.find? (fun r => r.method == m && patMatches r.pattern path) with
  | some r => r.handler (bindParams r.pattern path) s
  | none =>
    if routes.any (fun r => patMatches r.pattern path) then
      (s, .methodNotAllowed)
    else
      (s, .routeNotFound)

/-- The GET routes of src/main1.py in declaration order: `/` (line 31),
`/users` (line 56), `/users/{user_id}` (line 61), `/users/count`
(line 70).  The parameterized route precedes `/users/count`. -/
def main1GetRoutes : List (Route UsersDb) :=
  [⟨.get, [], fun _ db => (db, .homeMain1)⟩,
   ⟨.get, [.lit "users"], fun _ db => (db, .userList (get_all_users db))⟩,
   ⟨.get, [.lit "users", .param "user_id"], fun ps db => (db, get_user_by_id db (ps.headD ""))⟩,
   ⟨.get, [.lit "users", .lit "count"], fun _ db => (db, .totalUsers (get_users_count db))⟩]

def charDigit? (c : Char) : Option Nat :=
  if 48 ≤ c.toNat ∧ c.toNat ≤ 57 then some (c.toNat - 48) else none

def parseNatAux : List Char → Nat → Option Nat
  | [], acc => some acc
  | c :: cs, acc =>
    match charDigit? c with
    | some d => parseNatAux cs (acc * 10 + d)
    | none => none

/-- Decimal parsing of a path segment, standing for the framework's
conversion of a path parameter to `int`. -/
def parseNat? (s : String) : Option Nat :=
  match s.data with
  | [] => none
  | cs => parseNatAux cs 0

/-- Run a handler whose path parameter is declared `int`, as FastAPI
does after coercing the segment; a non-integer yields a 422 validation
error. -/
def withIntParam (seg : String) (k : Nat → UserDb → UserDb × Resp) (db : UserDb) :
    UserDb × Resp :=
  match parseNat? seg with
  | some n => k n db
  | none => (db, .validationError)

/-- The routes of src/testing.py in declaration order: GET `/` (line
21), GET `/users` (line 26), GET `/users/{user_id}` (line 31), PUT
`/users/{user_id}` (line 39, body supplied by `body`), DELETE
`/users/v1/delete/{user_id}` (line 60). -/
def testingRoutes (body : UserFields) : List (Route UserDb) :=
  [⟨.get, [], fun _ db => (db, .homeTesting db.length)⟩,
   ⟨.get, [.lit "users"], fun _ db => (db, .usersDict db)⟩,
   ⟨.get, [.lit "users", .param "user_id"],
     fun ps db => withIntParam (ps.headD "") (fun n d => (d, get_user d n)) db⟩,
   ⟨.put, [.lit "users", .param "user_id"],
     fun ps db => withIntParam (ps.headD "") (fun n d => update_user d n body) db⟩,
   ⟨.delete, [.lit "users", .lit "v1", .lit "delete", .param "user_id"],
     fun ps db => withIntParam (ps.headD "") (fun n d => delete_user d n) db⟩]

/-! ## Store projections and helper lemmas -/

/-- The identifiers stored in the list store of src/main1.py. -/
def dbIds (db : UsersDb) : List String := db.map (fun r => r.id)

/-- The keys of the dict store of src/testing.py, in insertion order. -/
def dictKeys (db : UserDb) : List Nat := db.map (fun kv => kv.1)

theorem lookup_cons_ne (a : Nat) (b : UserFields) (tl : UserDb) (k : Nat) (h : k ≠ a) :
    ((a, b) :: tl).lookup k = tl.lookup k := by
  have hb : (k == a) = false := by simpa using h
  simp [List.lookup_cons, hb]

theorem lookup_mapSet (db : UserDb) (k k2 : Nat) (v : UserFields) :
    (db.map (fun kv => if kv.1 == k then (k, v) else kv)).lookup k2
      = if k2 = k then (db.lookup k2).map (fun _ => v) else db.lookup k2 := by
  induction db with
  | nil => simp
  | cons hd tl ih =>
    obtain ⟨a, b⟩ := hd
    simp only [List.map_cons]
    by_cases hak : a = k
    · subst hak
      have ha : (a == a) = true := by simp
      rw [if_pos ha]
      by_cases hk2 : k2 = a
      · subst hk2
        rw [List.lookup_cons_self, if_pos rfl, List.lookup_cons_self]
        rfl
      · rw [lookup_cons_ne a v _ k2 hk2, lookup_cons_ne a b tl k2 hk2, ih]
    · have ha : ¬((a == k) = true) := by simpa using hak
      rw [if_neg ha]
      by_cases hk2 : k2 = a
      · subst hk2
        rw [List.lookup_cons_self, if_neg hak, List.lookup_cons_self]
      · rw [lookup_cons_ne a b _ k2 hk2, lookup_cons_ne a b tl k2 hk2, ih]

theorem dictSet_lookup_self (db : UserDb) (k : Nat) (v : UserFields) :
    (dictSet db k v).lookup k = some v := by
  unfold dictSet
  by_cases h : (db.lookup k).isSome
  · rw [if_pos h, lookup_mapSet, if_pos rfl]
    obtain ⟨w, hw⟩ := Option.isSome_iff_exists.mp h
    simp [hw]
  · rw [if_neg h, List.lookup_append]
    rw [Option.not_isSome_iff_eq_none] at h
    simp [h]

theorem dictSet_lookup_ne (db : UserDb) (k k2 : Nat) (v : UserFields) (hne : k2 ≠ k) :
    (dictSet db k v).lookup k2 = db.lookup k2 := by
  unfold dictSet
  by_cases h : (db.lookup k).isSome
  · rw [if_pos h, lookup_mapSet, if_neg hne]
  · rw [if_neg h, List.lookup_append]
    have hb : (k2 == k) = false := by simpa using hne
    have : ([(k, v)] : UserDb).lookup k2 = none := by
      simp [List.lookup_cons, hb]
    rw [this, Option.or_none]

theorem dictKeys_mapSet (db : UserDb) (k : Nat) (v : UserFields) :
    dictKeys (db.map (fun kv => if kv.1 == k then (k, v) else kv)) = dictKeys db := by
  unfold dictKeys
  rw [List.map_map]
  apply List.map_congr_left
  intro kv _
  by_cases h : kv.1 = k <;> simp [h]

theorem dictDel_lookup_self (db : UserDb) (k : Nat) :
    (dictDel db k).lookup k = none := by
  rw [List.lookup_eq_none_iff]
  intro p hp
  have := (List.mem_filter.mp hp).2
  simp only [Bool.not_eq_eq_eq_not, Bool.not_true, beq_eq_false_iff_ne] at this
  simpa using Ne.symm this

theorem dictDel_cons (a : Nat) (b : UserFields) (tl : UserDb) (k : Nat) :
    dictDel ((a, b) :: tl) k = if a = k then dictDel tl k else (a, b) :: dictDel tl k := by
  by_cases h : a = k
  · have hb : (a == k) = true := by simpa using h
    simp [dictDel, List.filter_cons, hb, h]
  · have hb : (a == k) = false := by simpa using h
    simp [dictDel, List.filter_cons, hb, h]

theorem dictDel_lookup_ne (db : UserDb) (k k2 : Nat) (hne : k2 ≠ k) :
    (dictDel db k).lookup k2 = db.lookup k2 := by
  induction db with
  | nil => rfl
  | cons hd tl ih =>
    obtain ⟨a, b⟩ := hd
    rw [dictDel_cons]
    by_cases hak : a = k
    · rw [if_pos hak, ih, lookup_cons_ne a b tl k2 (fun h => hne (h.trans hak))]
    · rw [if_neg hak]
      by_cases hk2 : k2 = a
      · subst hk2
        rw [List.lookup_cons_self, List.lookup_cons_self]
      · rw [lookup_cons_ne a b _ k2 hk2, lookup_cons_ne a b tl k2 hk2, ih]

theorem lookup_none_of_not_mem_keys (db : UserDb) (k : Nat) (h : k ∉ dictKeys db) :
    db.lookup k = none := by
  rw [List.lookup_eq_none_iff]
  intro p hp
  simp only [bne_iff_ne, ne_eq]
  intro hk
  exact h (hk ▸ List.mem_map_of_mem (fun kv => kv.1) hp)

theorem dictDel_of_not_mem (db : UserDb) (k : Nat) (h : k ∉ dictKeys db) :
    dictDel db k = db := by
  rw [dictDel, List.filter_eq_self]
  intro p hp
  simp only [Bool.not_eq_eq_eq_not, Bool.not_true, beq_eq_false_iff_ne, ne_eq]
  intro hk
  exact h (hk ▸ List.mem_map_of_mem (fun kv => kv.1) hp)

theorem dictDel_length (db : UserDb) (k : Nat) (hnodup : (dictKeys db).Nodup)
    (hpres : (db.lookup k).isSome) :
    (dictDel db k).length + 1 = db.length := by
  induction db with
  | nil => simp at hpres
  | cons hd tl ih =>
    obtain ⟨a, b⟩ := hd
    simp only [dictKeys, List.map_cons, List.nodup_cons] at hnodup
    rw [dictDel_cons]
    by_cases hak : a = k
    · subst hak
      have hdel : dictDel tl a = tl := dictDel_of_not_mem tl a (by simpa [dictKeys] using hnodup.1)
      rw [if_pos rfl, hdel, List.length_cons]
    · have hpres2 : (tl.lookup k).isSome := by
        rwa [lookup_cons_ne a b tl k (fun h => hak h.symm)] at hpres
      have hlen := ih (by simpa [dictKeys] using hnodup.2) hpres2
      rw [if_neg hak, List.length_cons, List.length_cons]
      omega

theorem update_user_fst (db : UserDb) (k : Nat) (v : UserFields) :
    (update_user db k v).1 = if (db.lookup k).isSome then dictSet db k v else db := by
  unfold update_user
  cases h : db.lookup k with
  | none => simp [h]
  | some old =>
    cases h2 : (dictSet db k v).lookup k <;> simp [h, h2]

/-! ## Claims -/

/-- C1: the claim says every `GET /users/count` request reaches the Count
operation and returns `{"total_users": n}`.  It does not: src/main1.py
registers `GET /users/{user_id}` (line 61) before `GET /users/count`
(line 70), so FastAPI resolves `/users/count` to `get_user_by_id` with
`user_id = "count"` in every store state; on the empty store this yields
404 `"User not found"`, which is never a `total_users` payload. -/
theorem C1_users_count_route_shadowed :
    (∀ db : UsersDb,
      dispatch main1GetRoutes .get ["users", "count"] db = (db, get_user_by_id db "count"))
    ∧ dispatch main1GetRoutes .get ["users", "count"] [] = ([], .http404 "User not found")
    ∧ ∀ n : Nat, (Resp.http404 "User not found") ≠ .totalUsers n := by
  refine ⟨fun db => rfl, rfl, fun n h => ?_⟩
  exact Resp.noConfusion h

/-- C2: `create_user` appends the record built from the generated
identifier and the posted fields, the returned record carries that
identifier, and `get_user_by_id` on the returned identifier yields the
very record `create_user` returned, provided the generated identifier is
new (not already in the store), which is what `uuid.uuid4()` is used
for. -/
theorem C2_create_then_getById (db : UsersDb) (uid : String) (u : UserFields)
    (hfresh : ∀ r ∈ db, r.id ≠ uid) :
    (create_user db uid u).1 = db ++ [(create_user db uid u).2]
    ∧ (create_user db uid u).2.id = uid
    ∧ get_user_by_id (create_user db uid u).1 uid = .userResp (create_user db uid u).2 := by
  refine ⟨rfl, rfl, ?_⟩
  have hnone : db.find? (fun r => r.id == uid) = none := by
    rw [List.find?_eq_none]
    intro x hx
    simpa using hfresh x hx
  simp [create_user, get_user_by_id, List.find?_append, hnone]

theorem C2_witness :
    (create_user [] "id-1" john).1 = [] ++ [(create_user [] "id-1" john).2]
    ∧ (create_user [] "id-1" john).2.id = "id-1"
    ∧ get_user_by_id (create_user [] "id-1" john).1 "id-1"
        = .userResp (create_user [] "id-1" john).2 :=
  C2_create_then_getById [] "id-1" john (by simp)

/-- C3: for a stored identifier, `update_user` replaces the whole record
value with the posted fields (`dictSet`, no partial merge: the stored
value afterwards is exactly `u`) and answers with the message, the
identifier, the pre-update snapshot and the post-update snapshot. -/
theorem C3_update_total_replacement (db : UserDb) (uid : Nat) (u old : UserFields)
    (h : db.lookup uid = some old) :
    update_user db uid u = (dictSet db uid u, .updated uid old u)
    ∧ (update_user db uid u).1.lookup uid = some u := by
  have hself := dictSet_lookup_self db uid u
  have h1 : update_user db uid u = (dictSet db uid u, .updated uid old u) := by
    simp [update_user, h, hself]
  exact ⟨h1, by rw [h1]; exact hself⟩

theorem C3_witness :
    update_user user_db 1 jane = (dictSet user_db 1 jane, .updated 1 john jane)
    ∧ (update_user user_db 1 jane).1.lookup 1 = some jane :=
  C3_update_total_replacement user_db 1 jane john (by decide)

/-- C4: on an absent identifier, `get_user`, `update_user` and
`delete_user` of src/testing.py, and `get_user_by_id` of src/main1.py,
all raise 404 with the fixed detail `"User not found"` and return the
store unchanged. -/
theorem C4_notfound_is_atomic (db : UserDb) (uid : Nat) (u : UserFields)
    (dbL : UsersDb) (sid : String)
    (h : db.lookup uid = none) (hL : ∀ r ∈ dbL, r.id ≠ sid) :
    get_user db uid = .http404 "User not found"
    ∧ update_user db uid u = (db, .http404 "User not found")
    ∧ delete_user db uid = (db, .http404 "User not found")
    ∧ get_user_by_id dbL sid = .http404 "User not found" := by
  have hnone : dbL.find? (fun r => r.id == sid) = none := by
    rw [List.find?_eq_none]
    intro x hx
    simpa using hL x hx
  refine ⟨?_, ?_, ?_, ?_⟩
  · simp [get_user, h]
  · simp [update_user, h]
  · simp [delete_user, h]
  · simp [get_user_by_id, hnone]

theorem C4_witness :
    get_user user_db 99 = .http404 "User not found"
    ∧ update_user user_db 99 jane = (user_db, .http404 "User not found")
    ∧ delete_user user_db 99 = (user_db, .http404 "User not found")
    ∧ get_user_by_id [] "nope" = .http404 "User not found" :=
  C4_notfound_is_atomic user_db 99 jane [] "nope" (by decide) (by simp)

/-- C5: `get_users_count` returns the length of the very list
`get_all_users` returns, in every store state, and (instantiating the
state) this equality still holds after any `create_user` — the only
mutating operation of the string-id variant. -/
theorem C5_count_eq_listAll_length :
    (∀ db : UsersDb, get_users_count db = (get_all_users db).length)
    ∧ (∀ (db : UsersDb) (uid : String) (u : UserFields),
        get_users_count (create_user db uid u).1
          = (get_all_users (create_user db uid u).1).length) :=
  ⟨fun _ => rfl, fun _ _ _ => rfl⟩

/-- C6 counterexample: src/testing.py registers its delete route at
`/users/v1/delete/{user_id}` (line 60), not `/users/{id}`; on the seeded
store, `DELETE /users/1` matches no registered delete route (the path
only fits the GET and PUT templates, so the framework answers 405), the
store is untouched and the claimed success message is not produced. -/
theorem C6_counterexample :
    dispatch (testingRoutes john) .delete ["users", "1"] user_db = (user_db, .methodNotAllowed)
    ∧ (dispatch (testingRoutes john) .delete ["users", "1"] user_db).2
        ≠ .message "User deleted successfully" :=
  ⟨rfl, by decide⟩

/-- C6 amended: the delete endpoint is `DELETE /users/v1/delete/{id}`;
for a stored identifier it removes the record, answers
`{"message": "User deleted successfully"}`, and a subsequent
`GET /users/{id}` answers 404 `{"detail": "User not found"}`. -/
theorem C6_delete_then_get (db : UserDb) (uid : Nat) (seg : String) (body : UserFields)
    (hseg : parseNat? seg = some uid) (h : (db.lookup uid).isSome) :
    dispatch (testingRoutes body) .delete ["users", "v1", "delete", seg] db
      = (dictDel db uid, .message "User deleted successfully")
    ∧ dispatch (testingRoutes body) .get ["users", seg] (dictDel db uid)
      = (dictDel db uid, .http404 "User not found") := by
  have hdel : dispatch (testingRoutes body) .delete ["users", "v1", "delete", seg] db
      = withIntParam seg (fun n d => delete_user d n) db := rfl
  have hget : dispatch (testingRoutes body) .get ["users", seg] (dictDel db uid)
      = withIntParam seg (fun n d => (d, get_user d n)) (dictDel db uid) := rfl
  constructor
  · rw [hdel]
    simp [withIntParam, hseg, delete_user, h]
  · rw [hget]
    simp [withIntParam, hseg, get_user, dictDel_lookup_self]

theorem C6_witness :
    dispatch (testingRoutes john) .delete ["users", "v1", "delete", "1"] user_db
      = (dictDel user_db 1, .message "User deleted successfully")
    ∧ dispatch (testingRoutes john) .get ["users", "1"] (dictDel user_db 1)
      = (dictDel user_db 1, .http404 "User not found") :=
  C6_delete_then_get user_db 1 "1" john (by decide) (by decide)

/-- C7: identifier uniqueness: both initial stores (the empty list of
src/main1.py and the five-record seed of src/testing.py) carry pairwise
distinct identifiers, and each operation keeps it so: `create_user` when
the freshly generated identifier is new (the purpose of `uuid.uuid4()`),
`update_user` (keys unchanged) and `delete_user` (keys only removed)
unconditionally. -/
theorem C7_ids_unique_preserved (dbL : UsersDb) (uid : String) (u : UserFields)
    (db : UserDb) (k : Nat) (v : UserFields)
    (hL : (dbIds dbL).Nodup) (hfresh : uid ∉ dbIds dbL) (hD : (dictKeys db).Nodup) :
    (dbIds ([] : UsersDb)).Nodup
    ∧ (dictKeys user_db).Nodup
    ∧ (dbIds (create_user dbL uid u).1).Nodup
    ∧ (dictKeys (update_user db k v).1).Nodup
    ∧ (dictKeys (delete_user db k).1).Nodup := by
  refine ⟨by simp [dbIds], by decide, ?_, ?_, ?_⟩
  · have hconcat : dbIds (create_user dbL uid u).1 = (dbIds dbL).concat uid := by
      simp [create_user, dbIds, List.concat_eq_append]
    rw [hconcat]
    exact List.Nodup.concat hfresh hL
  · rw [update_user_fst]
    by_cases hpres : (db.lookup k).isSome
    · rw [if_pos hpres]
      unfold dictSet
      rw [if_pos hpres, dictKeys_mapSet]
      exact hD
    · rw [if_neg hpres]
      exact hD
  · unfold delete_user
    by_cases hpres : (db.lookup k).isSome
    · rw [if_pos hpres]
      have hsub : List.Sublist
          (List.map (fun kv : Nat × UserFields => kv.1)
            (List.filter (fun kv => !(kv.1 == k)) db))
          (List.map (fun kv : Nat × UserFields => kv.1) db) :=
        List.Sublist.map (fun kv => kv.1) (List.filter_sublist db)
      show (dictKeys (dictDel db k)).Nodup
      exact List.Nodup.sublist hsub hD
    · rw [if_neg hpres]
      exact hD

theorem C7_witness :
    (dbIds ([] : UsersDb)).Nodup
    ∧ (dictKeys user_db).Nodup
    ∧ (dbIds (create_user [] "id-1" john).1).Nodup
    ∧ (dictKeys (update_user user_db 1 jane).1).Nodup
    ∧ (dictKeys (delete_user user_db 1).1).Nodup :=
  C7_ids_unique_preserved [] "id-1" john user_db 1 jane (by simp [dbIds])
    (by simp [dbIds]) (by decide)

/-- Modelled from the spec: src/testing.py, the variant holding the
Update operation, has no create route (only the string-id variant in
src/main1.py has one); the spec's "Create(name, email, phone, gender) →
allocates a new unique identifier, stores the record, returns the full
record including identifier" is embedded for the integer-id variant,
with the freshly allocated key passed in as the oracle `new_id`. -/
def create_user_v1 (db : UserDb) (new_id : Nat) (u : UserFields) : UserDb × Nat :=
  (db ++ [(new_id, u)], new_id)

/-- C8: Create with a fresh key, then Update the returned key with
different fields, then GetById: the result carries the updated fields
and not the original ones. -/
theorem C8_create_update_getById (db : UserDb) (k : Nat) (u1 u2 : UserFields)
    (hfresh : db.lookup k = none) (hdiff : u1 ≠ u2) :
    get_user (update_user (create_user_v1 db k u1).1 k u2).1 k = .userWithId k u2
    ∧ get_user (update_user (create_user_v1 db k u1).1 k u2).1 k ≠ .userWithId k u1 := by
  have h1 : (create_user_v1 db k u1).1.lookup k = some u1 := by
    simp [create_user_v1, List.lookup_append, hfresh]
  have hs : ((create_user_v1 db k u1).1.lookup k).isSome := by rw [h1]; rfl
  have hfst : (update_user (create_user_v1 db k u1).1 k u2).1
      = dictSet (create_user_v1 db k u1).1 k u2 := by
    rw [update_user_fst, if_pos hs]
  have hlook : (update_user (create_user_v1 db k u1).1 k u2).1.lookup k = some u2 := by
    rw [hfst, dictSet_lookup_self]
  have hres : get_user (update_user (create_user_v1 db k u1).1 k u2).1 k
      = .userWithId k u2 := by
    simp [get_user, hlook]
  refine ⟨hres, ?_⟩
  rw [hres]
  intro hcontra
  injection hcontra with ha hb
  exact hdiff hb.symm

theorem C8_witness :
    get_user (update_user (create_user_v1 [] 7 john).1 7 jane).1 7 = .userWithId 7 jane
    ∧ get_user (update_user (create_user_v1 [] 7 john).1 7 jane).1 7 ≠ .userWithId 7 john :=
  C8_create_update_getById [] 7 john jane rfl (by decide)

/-- C9: frame effect: a successful `update_user` or `delete_user` at key
`k` leaves the record at every other key unchanged; update changes no
keys at all, and delete removes exactly one record (the length drops by
one). -/
theorem C9_frame (db : UserDb) (k k2 : Nat) (u : UserFields)
    (hne : k2 ≠ k) (hpres : (db.lookup k).isSome) (hnodup : (dictKeys db).Nodup) :
    (update_user db k u).1.lookup k2 = db.lookup k2
    ∧ dictKeys (update_user db k u).1 = dictKeys db
    ∧ (delete_user db k).1.lookup k2 = db.lookup k2
    ∧ (delete_user db k).1.length + 1 = db.length := by
  have hufst : (update_user db k u).1 = dictSet db k u := by
    rw [update_user_fst, if_pos hpres]
  have hdfst : (delete_user db k).1 = dictDel db k := by
    unfold delete_user
    rw [if_pos hpres]
  refine ⟨?_, ?_, ?_, ?_⟩
  · rw [hufst, dictSet_lookup_ne db k k2 u hne]
  · rw [hufst]
    unfold dictSet
    rw [if_pos hpres, dictKeys_mapSet]
  · rw [hdfst, dictDel_lookup_ne db k k2 hne]
  · rw [hdfst]
    exact dictDel_length db k hnodup hpres

theorem C9_witness :
    (update_user user_db 1 jack).1.lookup 2 = user_db.lookup 2
    ∧ dictKeys (update_user user_db 1 jack).1 = dictKeys user_db
    ∧ (delete_user user_db 1).1.lookup 2 = user_db.lookup 2
    ∧ (delete_user user_db 1).1.length + 1 = user_db.length :=
  C9_frame user_db 1 2 jack (by decide) (by decide) (by decide)

/-- C10: `get_user_by_id` scans the stored list in insertion order and
returns the first record whose identifier matches; in particular, with a
duplicated identifier the earlier-created record wins. -/
theorem C10_first_match_wins (pre post : UsersDb) (r : UserResponse) (uid : String)
    (hpre : ∀ x ∈ pre, x.id ≠ uid) (hr : r.id = uid) :
    get_user_by_id (pre ++ r :: post) uid = .userResp r := by
  have hnone : pre.find? (fun x => x.id == uid) = none := by
    rw [List.find?_eq_none]
    intro x hx
    simpa using hpre x hx
  have hhd : (r :: post).find? (fun x => x.id == uid) = some r :=
    List.find?_cons_of_pos post (by simpa using hr)
  simp [get_user_by_id, List.find?_append, hnone, hhd]

theorem C10_witness :
    get_user_by_id ([] ++ (⟨"a", "A", "e", "p", "g"⟩ : UserResponse)
        :: [⟨"a", "B", "e", "p", "g"⟩]) "a"
      = .userResp ⟨"a", "A", "e", "p", "g"⟩ :=
  C10_first_match_wins [] [⟨"a", "B", "e", "p", "g"⟩] ⟨"a", "A", "e", "p", "g"⟩ "a"
    (by simp) rfl

end FastApiApis
